/-
Verification of the content-sync and briefing pipeline of `backend-2024`.

The development shallowly embeds the Python source under `app/` into Lean:
pure computation becomes Lean functions over ℚ (for Python floats), the
database session becomes explicit list-valued stores passed in and out, and
external collaborators (provider fetches, OpenAI calls, TTS, blob storage)
become `Except`-valued oracle parameters.  Every definition is translated
from the corresponding function of the source tree; file and line references
are given in the doc comments.
-/
import Mathlib

namespace Backend2024

/-! ### Enumerations (app/models/content.py, app/models/briefing.py,
app/models/data_source.py, app/models/sync_log.py) -/

/-- `CategoryType` of app/models/content.py. -/
inductive CategoryType
  | personal
  | work
  | hobby
  | news
  | important
  | other
deriving DecidableEq, Repr

/-- `ContentType` of app/models/content.py. -/
inductive ContentType
  | post
  | article
  | message
  | notification
deriving DecidableEq, Repr

/-- `BriefingStatus` of app/models/briefing.py. -/
inductive BriefingStatus
  | pending
  | generating
  | ready
  | delivered
  | failed
deriving DecidableEq, Repr

/-- `SourceType` of app/models/data_source.py. -/
inductive SourceType
  | twitter
  | facebook
  | instagram
  | telegram
  | rss
deriving DecidableEq, Repr

/-- `SyncStatus` of app/models/sync_log.py. -/
inductive SyncStatus
  | success
  | partial_ : SyncStatus
  | failed
deriving DecidableEq, Repr

/-! ### Data model

Timestamps are embedded as integers (seconds); Python floats as ℚ.
Only the columns the verified code paths read or write are carried. -/

/-- The `public_metrics` sub-dictionary of a tweet's `item_metadata`
(read by `RuleBasedClassifier._calculate_social_score`).  Engagement
counters are natural numbers. -/
structure PublicMetrics where
  like_count : Nat
  retweet_count : Nat
  reply_count : Nat
deriving DecidableEq, Repr

/-- `ContentItem` of app/models/content.py.  `metrics` embeds
`item_metadata["public_metrics"]` (`none` when the metadata map has no such
key, in which case every counter defaults to 0, as `dict.get` does).
The raw payload column is omitted: it is opaque and never read back. -/
structure ContentItem where
  id : Nat
  source_id : Nat
  external_id : String
  content_type : ContentType
  title : Option String
  text_content : Option String
  url : Option String
  author : Option String
  published_at : Int
  metrics : Option PublicMetrics
deriving DecidableEq, Repr

/-- `ContentClassification` of app/models/content.py, restricted to the
fields the pipeline reads (the `topics` array and bookkeeping columns are
never consulted by the selector or the briefing task). -/
structure Classification where
  category : CategoryType
  relevance_score : ℚ
  importance_score : ℚ
  social_score : ℚ
  personal_score : ℚ
deriving DecidableEq, Repr

/-! ### Rule-based classifier (app/services/classification.py, class
`RuleBasedClassifier`) -/

/-- `WORK_KEYWORDS` of app/services/classification.py. -/
def WORK_KEYWORDS : List String :=
  ["работа", "проект", "дедлайн", "встреча", "коллега", "офис",
   "задача", "клиент", "бизнес", "компания", "стартап"]

/-- `PERSONAL_KEYWORDS` of app/services/classification.py. -/
def PERSONAL_KEYWORDS : List String :=
  ["семья", "друзья", "день рождения", "отпуск", "праздник",
   "личное", "дом", "родные"]

/-- `HOBBY_KEYWORDS` of app/services/classification.py. -/
def HOBBY_KEYWORDS : List String :=
  ["хобби", "спорт", "музыка", "кино", "книга", "игра",
   "путешествие", "фото", "рисование"]

/-- `NEWS_KEYWORDS` of app/services/classification.py. -/
def NEWS_KEYWORDS : List String :=
  ["новость", "событие", "происшествие", "политика", "экономика",
   "технологии", "наука", "культура"]

/-- `IMPORTANT_KEYWORDS` of app/services/classification.py. -/
def IMPORTANT_KEYWORDS : List String :=
  ["важно", "срочно", "критично", "внимание", "обязательно",
   "необходимо", "требуется"]

/-- All keyword lists of the rule-based classifier. -/
def ALL_KEYWORDS : List String :=
  WORK_KEYWORDS ++ PERSONAL_KEYWORDS ++ HOBBY_KEYWORDS ++
    NEWS_KEYWORDS ++ IMPORTANT_KEYWORDS

/-- Python `str.lower()` restricted to the alphabets the classifier's text
actually ranges over: ASCII Latin and the Cyrillic block (А..Я and Ё) used
by the keyword lists. -/
def pyLowerChar (c : Char) : Char :=
  if 'A' ≤ c ∧ c ≤ 'Z' then Char.ofNat (c.toNat + 32)
  else if 'А' ≤ c ∧ c ≤ 'Я' then Char.ofNat (c.toNat + 32)
  else if c = 'Ё' then 'ё'
  else c

/-- Python `str.lower()` (see `pyLowerChar`). -/
def pyLower (s : String) : String :=
  ⟨s.data.map pyLowerChar⟩

/-- Python's substring test `keyword in text`. -/
def containsKeyword (text kw : String) : Bool :=
  decide (List.IsInfix kw.data text.data)

/-- `RuleBasedClassifier._calculate_score`:
`min(matches / len(keywords) * 2.0, 1.0) if keywords else 0.0`. -/
def calculateScore (text : String) (keywords : List String) : ℚ :=
  if keywords.length = 0 then 0
  else
    let matched := (keywords.filter (fun kw => containsKeyword text kw)).length
    min ((matched : ℚ) / (keywords.length : ℚ) * 2) 1

/-- `RuleBasedClassifier._calculate_social_score`: engagement metrics
normalised by 1000 and capped at 1.0; every counter defaults to 0 when the
metadata carries no `public_metrics`. -/
def calculateSocialScore (metrics : Option PublicMetrics) : ℚ :=
  let m := metrics.getD ⟨0, 0, 0⟩
  let totalEngagement : ℚ := (m.like_count : ℚ) + (m.retweet_count : ℚ) * 2 + (m.reply_count : ℚ)
  min (totalEngagement / 1000) 1

/-- `RuleBasedClassifier._calculate_personal_score`: a constant base score. -/
def calculatePersonalScore (_content : ContentItem) : ℚ := 3 / 10

/-- Python's `max(scores, key=scores.get)` over an insertion-ordered dict:
the fold keeps the current best and replaces it only on a strictly greater
score, so the first key attaining the maximum (in insertion order) wins. -/
def argmaxCategory (pairs : List (CategoryType × ℚ)) (init : CategoryType × ℚ) : CategoryType :=
  (pairs.foldl (fun best pr => if best.2 < pr.2 then pr else best) init).1

/-- The lowercased `f"{title} {text}"` that `RuleBasedClassifier.classify`
scores. -/
def fullTextOf (content : ContentItem) : String :=
  pyLower (content.title.getD "") ++ " " ++ pyLower (content.text_content.getD "")

/-- `RuleBasedClassifier.classify` of app/services/classification.py.
The returned `topics` list is not embedded: no verified code path reads it. -/
def ruleClassify (content : ContentItem) : Classification :=
  let fullText := fullTextOf content
  let workScore := calculateScore fullText WORK_KEYWORDS
  let personalScore := calculateScore fullText PERSONAL_KEYWORDS
  let hobbyScore := calculateScore fullText HOBBY_KEYWORDS
  let newsScore := calculateScore fullText NEWS_KEYWORDS
  let importantScore := calculateScore fullText IMPORTANT_KEYWORDS
  let category := argmaxCategory
    [(CategoryType.personal, personalScore), (CategoryType.hobby, hobbyScore),
     (CategoryType.news, newsScore), (CategoryType.important, importantScore),
     (CategoryType.other, 1 / 10)]
    (CategoryType.work, workScore)
  let relevanceScore := max (max (max workScore personalScore) hobbyScore) newsScore
  let importanceScore := importantScore * (1 / 2) + relevanceScore * (1 / 2)
  { category := category
    relevance_score := min relevanceScore 1
    importance_score := min importanceScore 1
    social_score := calculateSocialScore content.metrics
    personal_score := calculatePersonalScore content }

/-! ### AI classifier (app/services/classification.py, class `AIClassifier`) -/

/-- The JSON object parsed from a successful OpenAI chat completion in
`AIClassifier.classify`.  `none` fields model absent keys, for which
`result.get(..., default)` substitutes the coded defaults. -/
structure AIRawResult where
  category : Option String
  relevance_score : Option ℚ
  importance_score : Option ℚ
  social_score : Option ℚ
  personal_score : Option ℚ
deriving DecidableEq, Repr

/-- Python `CategoryType(value)`: `none` models the `ValueError` raised on a
string outside the enumeration. -/
def parseCategoryType (s : String) : Option CategoryType :=
  if s = "personal" then some CategoryType.personal
  else if s = "work" then some CategoryType.work
  else if s = "hobby" then some CategoryType.hobby
  else if s = "news" then some CategoryType.news
  else if s = "important" then some CategoryType.important
  else if s = "other" then some CategoryType.other
  else none

/-- `AIClassifier.classify` of app/services/classification.py.  The OpenAI
round trip (chat completion, `json.loads`, `float(...)` coercions) is the
`response` oracle: `.error` covers every exception raised before the result
dictionary is available.  `CategoryType(result.get("category", "other"))`
raising on an unknown string is the remaining in-scope exception; both are
caught by the `except` clause, which falls back to the rule-based path. -/
def aiClassify (response : Except String AIRawResult) (content : ContentItem) :
    Classification :=
  match response with
  | .error _ => ruleClassify content
  | .ok r =>
    match parseCategoryType (r.category.getD "other") with
    | none => ruleClassify content
    | some cat =>
      { category := cat
        relevance_score := r.relevance_score.getD (1 / 2)
        importance_score := r.importance_score.getD (1 / 2)
        social_score := r.social_score.getD (3 / 10)
        personal_score := r.personal_score.getD (3 / 10) }

/-- The AI path "raises" exactly when the oracle errors or the category
string is rejected by `CategoryType(...)`. -/
def aiPathRaises (response : Except String AIRawResult) : Bool :=
  match response with
  | .error _ => true
  | .ok r => (parseCategoryType (r.category.getD "other")).isNone

/-- All four scores of a classification lie within `[0, 1]`. -/
def scoresInRange (c : Classification) : Prop :=
  0 ≤ c.relevance_score ∧ c.relevance_score ≤ 1 ∧
  0 ≤ c.importance_score ∧ c.importance_score ≤ 1 ∧
  0 ≤ c.social_score ∧ c.social_score ≤ 1 ∧
  0 ≤ c.personal_score ∧ c.personal_score ≤ 1

instance (c : Classification) : Decidable (scoresInRange c) := by
  unfold scoresInRange; infer_instance

/-- The fixed category enumeration. -/
def fixedCategories : List CategoryType :=
  [CategoryType.personal, CategoryType.work, CategoryType.hobby,
   CategoryType.news, CategoryType.important, CategoryType.other]

/-! ### Range lemmas for the rule-based classifier -/

lemma calculateScore_nonneg (text : String) (keywords : List String) :
    0 ≤ calculateScore text keywords := by
  unfold calculateScore
  split
  · exact le_refl 0
  · apply le_min
    · positivity
    · norm_num

lemma calculateScore_le_one (text : String) (keywords : List String) :
    calculateScore text keywords ≤ 1 := by
  unfold calculateScore
  split
  · norm_num
  · exact min_le_right _ _

lemma calculateSocialScore_range (metrics : Option PublicMetrics) :
    0 ≤ calculateSocialScore metrics ∧ calculateSocialScore metrics ≤ 1 := by
  unfold calculateSocialScore
  refine ⟨le_min (by positivity) (by norm_num), min_le_right _ _⟩

lemma argmaxCategory_mem (pairs : List (CategoryType × ℚ)) (init : CategoryType × ℚ) :
    argmaxCategory pairs init ∈ init.1 :: pairs.map Prod.fst := by
  unfold argmaxCategory
  induction pairs generalizing init with
  | nil => simp
  | cons hd tl ih =>
    simp only [List.foldl_cons, List.map_cons]
    by_cases h : init.2 < hd.2
    · simp only [if_pos h]
      exact List.mem_cons_of_mem _ (ih hd)
    · simp only [if_neg h]
      rcases List.mem_cons.mp (ih init) with h1 | h2
      · exact List.mem_cons.mpr (Or.inl h1)
      · exact List.mem_cons_of_mem _ (List.mem_cons_of_mem _ h2)

/-- The rule-based path always produces clamped scores and a category of the
fixed enumeration. -/
lemma ruleClassify_valid (content : ContentItem) :
    scoresInRange (ruleClassify content) ∧
      (ruleClassify content).category ∈ fixedCategories := by
  constructor
  · unfold ruleClassify scoresInRange
    simp only
    have h1 := calculateScore_nonneg (fullTextOf content) WORK_KEYWORDS
    have h2 := calculateScore_nonneg (fullTextOf content) PERSONAL_KEYWORDS
    have h3 := calculateScore_nonneg (fullTextOf content) HOBBY_KEYWORDS
    have h4 := calculateScore_nonneg (fullTextOf content) NEWS_KEYWORDS
    have h5 := calculateScore_nonneg (fullTextOf content) IMPORTANT_KEYWORDS
    have hsoc := calculateSocialScore_range content.metrics
    refine ⟨?_, min_le_right _ _, ?_, min_le_right _ _, hsoc.1, hsoc.2, by norm_num [calculatePersonalScore], by norm_num [calculatePersonalScore]⟩
    · apply le_min ?_ (by norm_num)
      calc (0 : ℚ) ≤ calculateScore (fullTextOf content) WORK_KEYWORDS := h1
        _ ≤ _ := le_max_of_le_left (le_max_of_le_left (le_max_left _ _))
    · apply le_min ?_ (by norm_num)
      have : (0 : ℚ) ≤ max (max (max (calculateScore (fullTextOf content) WORK_KEYWORDS)
          (calculateScore (fullTextOf content) PERSONAL_KEYWORDS))
          (calculateScore (fullTextOf content) HOBBY_KEYWORDS))
          (calculateScore (fullTextOf content) NEWS_KEYWORDS) :=
        le_trans h1 (le_max_of_le_left (le_max_of_le_left (le_max_left _ _)))
      nlinarith
  · have h := argmaxCategory_mem
      [(CategoryType.personal, calculateScore (fullTextOf content) PERSONAL_KEYWORDS),
       (CategoryType.hobby, calculateScore (fullTextOf content) HOBBY_KEYWORDS),
       (CategoryType.news, calculateScore (fullTextOf content) NEWS_KEYWORDS),
       (CategoryType.important, calculateScore (fullTextOf content) IMPORTANT_KEYWORDS),
       (CategoryType.other, 1 / 10)]
      (CategoryType.work, calculateScore (fullTextOf content) WORK_KEYWORDS)
    have hc : (ruleClassify content).category = argmaxCategory
      [(CategoryType.personal, calculateScore (fullTextOf content) PERSONAL_KEYWORDS),
       (CategoryType.hobby, calculateScore (fullTextOf content) HOBBY_KEYWORDS),
       (CategoryType.news, calculateScore (fullTextOf content) NEWS_KEYWORDS),
       (CategoryType.important, calculateScore (fullTextOf content) IMPORTANT_KEYWORDS),
       (CategoryType.other, 1 / 10)]
      (CategoryType.work, calculateScore (fullTextOf content) WORK_KEYWORDS) := rfl
    rw [hc]
    simp only [List.map_cons, List.map_nil, List.mem_cons, List.not_mem_nil, or_false] at h
    unfold fixedCategories
    simp only [List.mem_cons, List.not_mem_nil, or_false]
    tauto

/-! ### Briefing selector
(app/services/briefing_generator.py, `BriefingGenerator.select_content_for_briefing`) -/

/-- `DataSource` of app/models/data_source.py, restricted to the columns the
sync tasks and the selector read.  `credentials` is the encrypted credential
blob (its decrypted content only feeds the provider clients, which are
oracles here, so presence is what matters); `settings_feed_url` embeds
`settings["feed_url"]`. -/
structure DataSource where
  id : Nat
  user_id : Nat
  source_type : SourceType
  is_active : Bool
  credentials : Option String
  settings_feed_url : Option String
  last_sync_at : Option Int
  sync_frequency_minutes : Nat
deriving DecidableEq, Repr

/-- One row of the inner join `ContentItem JOIN ContentClassification` that
`select_content_for_briefing` queries (the 1:1 `classification`
relationship). -/
structure Entry where
  item : ContentItem
  cls : Classification
deriving DecidableEq, Repr

/-- The `ORDER BY relevance_score DESC, importance_score DESC` ordering:
`a` may come before `b`. -/
def entryGE (a b : Entry) : Prop :=
  b.cls.relevance_score < a.cls.relevance_score ∨
    (a.cls.relevance_score = b.cls.relevance_score ∧
      b.cls.importance_score ≤ a.cls.importance_score)

instance : DecidableRel entryGE := by
  unfold entryGE; infer_instance

instance : IsTotal Entry entryGE where
  total a b := by
    unfold entryGE
    rcases lt_trichotomy a.cls.relevance_score b.cls.relevance_score with h | h | h
    · rcases le_total a.cls.importance_score b.cls.importance_score with h2 | h2
      · exact Or.inr (Or.inl h)
      · exact Or.inr (Or.inl h)
    · rcases le_total b.cls.importance_score a.cls.importance_score with h2 | h2
      · exact Or.inl (Or.inr ⟨h, h2⟩)
      · exact Or.inr (Or.inr ⟨h.symm, h2⟩)
    · exact Or.inl (Or.inl h)

instance : IsTrans Entry entryGE where
  trans a b c hab hbc := by
    unfold entryGE at hab hbc ⊢
    rcases hab with hab | ⟨hab1, hab2⟩ <;> rcases hbc with hbc | ⟨hbc1, hbc2⟩
    · exact Or.inl (lt_trans hbc hab)
    · exact Or.inl (hbc1 ▸ hab)
    · exact Or.inl (hab1 ▸ hbc)
    · exact Or.inr ⟨hab1.trans hbc1, le_trans hbc2 hab2⟩

/-- `settings.MIN_RELEVANCE_SCORE` (app/core/config.py). -/
def MIN_RELEVANCE_SCORE : ℚ := 3 / 10

/-- `settings.MAX_CONTENT_ITEMS_PER_BRIEFING` (app/core/config.py). -/
def MAX_CONTENT_ITEMS_PER_BRIEFING : Nat := 10

/-- `max_items = max_items or settings.MAX_CONTENT_ITEMS_PER_BRIEFING`:
Python's `or` replaces both `None` and the falsy `0` with the default. -/
def effectiveMaxItems (maxItems : Option Nat) : Nat :=
  match maxItems with
  | none => MAX_CONTENT_ITEMS_PER_BRIEFING
  | some m => if m = 0 then MAX_CONTENT_ITEMS_PER_BRIEFING else m

/-- `min_relevance = preferences.min_relevance_score if preferences else
settings.MIN_RELEVANCE_SCORE`; `prefMinRelevance` is `none` when the user
has no `UserPreferences` row. -/
def effectiveMinRelevance (prefMinRelevance : Option ℚ) : ℚ :=
  prefMinRelevance.getD MIN_RELEVANCE_SCORE

/-- The filter of the selector's query: the item belongs to one of the
user's active sources, was published within the 24-hour window
(`published_at >= cutoff_time`), and its classification clears the
relevance threshold. -/
def candidatePred (sources : List DataSource) (userId : Nat) (minRelevance : ℚ)
    (cutoffTime : Int) (e : Entry) : Bool :=
  ((sources.filter (fun s => s.user_id == userId && s.is_active)).map (fun s => s.id)).contains
      e.item.source_id &&
    decide (cutoffTime ≤ e.item.published_at) &&
    decide (minRelevance ≤ e.cls.relevance_score)

/-- The candidate rows of `select_content_for_briefing`'s query, before
`ORDER BY` and `LIMIT`. -/
def briefingCandidates (entries : List Entry) (sources : List DataSource) (userId : Nat)
    (minRelevance : ℚ) (cutoffTime : Int) : List Entry :=
  entries.filter (candidatePred sources userId minRelevance cutoffTime)

/-- `BriefingGenerator.select_content_for_briefing` of
app/services/briefing_generator.py.  The query's `ORDER BY` is embedded as a
sort by `entryGE`; `LIMIT max_items * 2` is the `take (maxI * 2)`.  The
subsequent `if item.classification` re-check is the identity on the joined
rows (the query inner-joins `ContentClassification`, so every row has one)
and is kept as a filter that is always true.  The final `[:max_items]`
truncation is the last `take`. -/
def selectContentForBriefing (entries : List Entry) (sources : List DataSource)
    (userId : Nat) (prefMinRelevance : Option ℚ) (maxItems : Option Nat)
    (cutoffTime : Int) : List Entry :=
  let maxI := effectiveMaxItems maxItems
  let minRelevance := effectiveMinRelevance prefMinRelevance
  let content := (List.insertionSort entryGE
    (briefingCandidates entries sources userId minRelevance cutoffTime)).take (maxI * 2)
  let ranked := content.filter (fun _ => true)
  ranked.take maxI

lemma selectContentForBriefing_eq (entries : List Entry) (sources : List DataSource)
    (userId : Nat) (prefMinRelevance : Option ℚ) (maxItems : Option Nat)
    (cutoffTime : Int) :
    selectContentForBriefing entries sources userId prefMinRelevance maxItems cutoffTime =
      (List.insertionSort entryGE
        (briefingCandidates entries sources userId
          (effectiveMinRelevance prefMinRelevance) cutoffTime)).take
        (effectiveMaxItems maxItems) := by
  unfold selectContentForBriefing
  simp only [List.filter_true, List.take_take]
  congr 1
  omega

/-! ### Briefing state machine
(app/models/briefing.py, app/api/briefings.py, app/tasks/briefing.py) -/

/-- `Briefing` of app/models/briefing.py. -/
structure Briefing where
  id : Nat
  user_id : Nat
  date : Int
  status : BriefingStatus
  text_summary : Option String
  audio_file_url : Option String
  audio_duration_seconds : Option Nat
  content_items_count : Nat
  generated_at : Option Int
  delivered_at : Option Int
  error_message : Option String
deriving DecidableEq, Repr

/-- `BriefingContent` of app/models/briefing.py. -/
structure BriefingContent where
  briefing_id : Nat
  content_id : Nat
  order : Nat
  included_reason : String
deriving DecidableEq, Repr

/-- The query `Briefing.user_id == ... and Briefing.date == ...` used by
both generation triggers (unique on `(user_id, date)`). -/
def findBriefingByUserDate (store : List Briefing) (userId : Nat) (targetDate : Int) :
    Option Briefing :=
  store.find? (fun b => b.user_id == userId && b.date == targetDate)

/-- Committing a mutation of the unique `(user_id, date)` row. -/
def replaceBriefingByUserDate (store : List Briefing) (userId : Nat) (targetDate : Int)
    (b : Briefing) : List Briefing :=
  store.map (fun x => if x.user_id == userId && x.date == targetDate then b else x)

/-- A fresh `Briefing(user_id=..., date=..., status=...)` row; every other
column takes its model default. -/
def newBriefing (newId userId : Nat) (targetDate : Int) (status : BriefingStatus) : Briefing :=
  { id := newId, user_id := userId, date := targetDate, status := status,
    text_summary := none, audio_file_url := none, audio_duration_seconds := none,
    content_items_count := 0, generated_at := none, delivered_at := none,
    error_message := none }

/-- `trigger_briefing_generation` of app/api/briefings.py (`POST /generate`):
a DELIVERED briefing for the `(user, date)` is returned unchanged; otherwise
the row is created or flipped to GENERATING and committed (the task itself is
queued, not run, by the endpoint).  Returns the store after the commit and
the briefing returned to the caller. -/
def triggerBriefingGeneration (store : List Briefing) (userId : Nat) (targetDate : Int)
    (newId : Nat) : List Briefing × Briefing :=
  match findBriefingByUserDate store userId targetDate with
  | some existing =>
    if existing.status = BriefingStatus.delivered then
      (store, existing)
    else
      let b := { existing with status := BriefingStatus.generating }
      (replaceBriefingByUserDate store userId targetDate b, b)
  | none =>
    let b := newBriefing newId userId targetDate BriefingStatus.generating
    (store ++ [b], b)

/-- `mark_briefing_delivered` of app/api/briefings.py
(`POST /{briefing_id}/mark-delivered`): looks the briefing up by id and
owner, 404s when absent (`none`), and otherwise unconditionally sets
DELIVERED and `delivered_at` — there is no check of the prior status. -/
def markBriefingDelivered (store : List Briefing) (briefingId userId : Nat) (now : Int) :
    List Briefing × Option Briefing :=
  match store.find? (fun b => b.id == briefingId && b.user_id == userId) with
  | none => (store, none)
  | some b =>
    let b2 := { b with status := BriefingStatus.delivered, delivered_at := some now }
    (store.map (fun x => if x.id == briefingId && x.user_id == userId then b2 else x),
      some b2)

/-- `settings.BRIEFING_DURATION_SECONDS` (app/core/config.py). -/
def BRIEFING_DURATION_SECONDS : Nat := 120

/-- The `included_reason = f"Relevance: {...:.2f}"` string of the link rows;
the two-decimal float formatting is abstracted to `toString` of the exact
rational, which is irrelevant to every claim (only non-emptiness of the link
list is ever at stake). -/
def includedReasonFor (relevance : ℚ) : String :=
  "Relevance: " ++ toString relevance

/-- The `BriefingContent` rows written by `generate_briefing`: one link per
selected item in selection order, `order` starting at 1. -/
def briefingLinksFor (briefingId : Nat) (items : List Entry) : List BriefingContent :=
  items.enum.map (fun p =>
    { briefing_id := briefingId, content_id := p.2.item.id, order := p.1 + 1,
      included_reason := includedReasonFor p.2.cls.relevance_score })

/-- The generation phase of `generate_briefing` (app/tasks/briefing.py),
entered after the briefing row was committed as GENERATING.  `items` is the
selector's result.  No items ⇒ FAILED with the "no content" message and no
links.  Otherwise the external pipeline runs: `generate_text_summary` never
raises (it falls back to a local concatenation internally), while audio
rendering and `save_audio_file` can; `audioResult` is `.ok audio_url` on
success and `.error msg` on any raised exception, which the task's `except`
turns into FAILED with the captured text.  Returns the updated briefing row
and the link rows added. -/
def generationPhase (briefing : Briefing) (items : List Entry) (summaryText : String)
    (audioResult : Except String String) (now : Int) : Briefing × List BriefingContent :=
  if items.isEmpty then
    ({ briefing with
        status := BriefingStatus.failed
        error_message := some "No content available for briefing" }, [])
  else
    match audioResult with
    | .error e =>
      ({ briefing with
          status := BriefingStatus.failed
          error_message := some e }, [])
    | .ok audioUrl =>
      ({ briefing with
          text_summary := some summaryText,
          audio_file_url := some audioUrl,
          audio_duration_seconds := some BRIEFING_DURATION_SECONDS,
          content_items_count := items.length,
          generated_at := some now,
          status := BriefingStatus.ready },
        briefingLinksFor briefing.id items)

/-- `generate_briefing` of app/tasks/briefing.py (the Celery task).
`userActive` embeds the `user ... and user.is_active` guard; when it fails
the task returns without touching anything.  A DELIVERED briefing for the
`(user, date)` short-circuits (its id is returned, nothing is written).
Otherwise the row is created or set GENERATING and committed, the selector
runs over `entries`/`sources`, and `generationPhase` finishes the lifecycle.
Returns the briefing store after the final commit, the link rows written,
and the briefing whose id the task returns (`none` for the inactive-user
exit). -/
def generateBriefingTask (bstore : List Briefing) (userActive : Bool) (userId : Nat)
    (targetDate : Int) (newId : Nat) (entries : List Entry) (sources : List DataSource)
    (prefMinRelevance : Option ℚ) (summaryText : String)
    (audioResult : Except String String) (cutoffTime now : Int) :
    List Briefing × List BriefingContent × Option Briefing :=
  if userActive = false then (bstore, [], none)
  else
    match findBriefingByUserDate bstore userId targetDate with
    | some existing =>
      if existing.status = BriefingStatus.delivered then
        (bstore, [], some existing)
      else
        let b1 := { existing with status := BriefingStatus.generating }
        let items := selectContentForBriefing entries sources userId prefMinRelevance
          none cutoffTime
        let (b2, links) := generationPhase b1 items summaryText audioResult now
        (replaceBriefingByUserDate bstore userId targetDate b2, links, some b2)
    | none =>
      let b1 := newBriefing newId userId targetDate BriefingStatus.generating
      let items := selectContentForBriefing entries sources userId prefMinRelevance
        none cutoffTime
      let (b2, links) := generationPhase b1 items summaryText audioResult now
      (bstore ++ [b2], links, some b2)

/-! ### Sync layer (app/tasks/sync.py, app/services/rss_parser.py)

Provider clients are oracles; the database session is the explicit
`List ContentItem` store.  `SyncLog` timing columns (`duration_seconds`,
`started_at`, `completed_at`) are not modelled: no claim reads them. -/

/-- `SyncLog` of app/models/sync_log.py (timing columns omitted). -/
structure SyncLog where
  source_id : Nat
  status : SyncStatus
  items_fetched : Nat
  items_new : Nat
  items_updated : Nat
  error_message : Option String
deriving DecidableEq, Repr

/-- The repeated lookup
`db.query(ContentItem).filter(source_id == ..., external_id == ...)`
shared by every per-source sync function. -/
def itemExists (store : List ContentItem) (sourceId : Nat) (externalId : String) : Bool :=
  store.any (fun it => it.source_id == sourceId && it.external_id == externalId)

/-- Committing a mutation of the row with the given dedup key. -/
def updateItem (store : List ContentItem) (sourceId : Nat) (externalId : String)
    (f : ContentItem → ContentItem) : List ContentItem :=
  store.map (fun it =>
    if it.source_id == sourceId && it.external_id == externalId then f it else it)

/-- A tweet as returned by `TwitterClient.get_user_timeline` (the fields
sync_twitter_source reads). -/
structure Tweet where
  id : String
  text : String
  created_at : Int
  public_metrics : PublicMetrics
deriving DecidableEq, Repr

/-- The mutation applied to an existing row in the Twitter loop. -/
def twitterUpdateFun (t : Tweet) (it : ContentItem) : ContentItem :=
  { it with text_content := some t.text, metrics := some t.public_metrics }

/-- The fresh `ContentItem` of the Twitter loop, with the provider-specific
permalink and the account username as author. -/
def twitterNewItem (store : List ContentItem) (sourceId : Nat)
    (username : Option String) (t : Tweet) : ContentItem :=
  { id := store.length, source_id := sourceId, external_id := t.id,
    content_type := ContentType.post, title := none,
    text_content := some t.text,
    url := some ("https://twitter.com/i/web/status/" ++ t.id),
    author := username, published_at := t.created_at,
    metrics := some t.public_metrics }

/-- The per-tweet loop of `sync_twitter_source`: update the text, metadata
and raw payload of an existing `(source, external_id)` row, or insert a new
row with the Twitter permalink URL and the account's username as author.
Returns the store after `db.commit()` and the `(items_new, items_updated)`
counters.  Fresh rows take `store.length` as their surrogate id. -/
def twitterReconcile (store : List ContentItem) (sourceId : Nat)
    (username : Option String) : List Tweet → List ContentItem × Nat × Nat
  | [] => (store, 0, 0)
  | t :: rest =>
    if itemExists store sourceId t.id then
      let store2 := updateItem store sourceId t.id (twitterUpdateFun t)
      let r := twitterReconcile store2 sourceId username rest
      (r.1, r.2.1, r.2.2 + 1)
    else
      let newItem : ContentItem := twitterNewItem store sourceId username t
      let r := twitterReconcile (store ++ [newItem]) sourceId username rest
      (r.1, r.2.1 + 1, r.2.2)

/-- The fetch window of `sync_twitter_source` (and, identically,
`sync_facebook_source`): the source's `last_sync_at` when set, else 24 hours
before now. -/
def twitterWindowStart (source : DataSource) (now : Int) : Int :=
  match source.last_sync_at with
  | some t => t
  | none => now - 24 * 3600

/-- `sync_twitter_source` of app/tasks/sync.py: missing credentials raise;
the client fetch (an oracle over the window start) may raise; otherwise the
reconcile loop runs and `(fetched, new, updated)` is returned with the
committed store. -/
def syncTwitterSource (source : DataSource) (store : List ContentItem)
    (fetch : Int → Except String (List Tweet)) (username : Option String) (now : Int) :
    Except String (List ContentItem × Nat × Nat × Nat) :=
  match source.credentials with
  | none => .error "No credentials found for Twitter source"
  | some _ =>
    match fetch (twitterWindowStart source now) with
    | .error e => .error e
    | .ok tweets =>
      let r := twitterReconcile store source.id username tweets
      .ok (r.1, tweets.length, r.2.1, r.2.2)

/-- A Telegram message (the fields `sync_telegram_source` reads). -/
structure TgMessage where
  message_id : Option Nat
  chat_id : Int
  chat_type : String
  date : Option Int
  text : Option String
  caption : Option String
  from_username : Option String
deriving DecidableEq, Repr

/-- One update from `TelegramClient.get_updates`; `message` is `none` when
`update.get("message", {})` is missing or empty (falsy), in which case the
loop `continue`s. -/
structure TgUpdate where
  message : Option TgMessage
deriving DecidableEq, Repr

/-- `str(message.get("message_id", ""))`. -/
def tgExternalId (m : TgMessage) : String :=
  match m.message_id with
  | some n => toString n
  | none => ""

/-- `message.get("text", "") or message.get("caption", "")`. -/
def tgText (m : TgMessage) : String :=
  if m.text.getD "" = "" then m.caption.getD "" else m.text.getD ""

/-- The fresh `ContentItem` of the Telegram loop, with `published_at`
defaulting to now when the message has no date. -/
def tgNewItem (store : List ContentItem) (sourceId : Nat) (now : Int)
    (m : TgMessage) : ContentItem :=
  { id := store.length, source_id := sourceId, external_id := tgExternalId m,
    content_type := ContentType.message, title := none,
    text_content := some (tgText m), url := none,
    author := some (m.from_username.getD ""),
    published_at := m.date.getD now,
    metrics := none }

/-- The per-update loop of `sync_telegram_source`: updates without a message
are skipped (`continue`); an existing `(source, external_id)` row is counted
as updated but NOT overwritten; a fresh row is inserted otherwise, with
`published_at` defaulting to now when the message has no date. -/
def telegramReconcile (store : List ContentItem) (sourceId : Nat) (now : Int) :
    List TgUpdate → List ContentItem × Nat × Nat
  | [] => (store, 0, 0)
  | upd :: rest =>
    match upd.message with
    | none => telegramReconcile store sourceId now rest
    | some m =>
      let eid := tgExternalId m
      if itemExists store sourceId eid then
        let r := telegramReconcile store sourceId now rest
        (r.1, r.2.1, r.2.2 + 1)
      else
        let newItem : ContentItem := tgNewItem store sourceId now m
        let r := telegramReconcile (store ++ [newItem]) sourceId now rest
        (r.1, r.2.1 + 1, r.2.2)

/-- The Telegram offset: `int(last_sync.timestamp())` when `last_sync_at`
is set, else `None`. -/
def telegramOffset (source : DataSource) : Option Int :=
  source.last_sync_at

/-- `sync_telegram_source` of app/tasks/sync.py. -/
def syncTelegramSource (source : DataSource) (store : List ContentItem)
    (fetch : Option Int → Except String (List TgUpdate)) (now : Int) :
    Except String (List ContentItem × Nat × Nat × Nat) :=
  match source.credentials with
  | none => .error "No credentials found for Telegram source"
  | some _ =>
    match fetch (telegramOffset source) with
    | .error e => .error e
    | .ok updates =>
      let r := telegramReconcile store source.id now updates
      .ok (r.1, updates.length, r.2.1, r.2.2)

/-- One feed entry as `feedparser` exposes it (the keys
`RSSParser.parse_feed` reads); `published_at` collapses the already-parsed
`published_parsed` / `updated_parsed` time structs. -/
structure RssEntry where
  entry_id : Option String
  link : Option String
  title : Option String
  summary : Option String
  description : Option String
  author : Option String
  dc_creator : Option String
  published_at : Option Int
deriving DecidableEq, Repr

/-- A normalized item dictionary returned by `RSSParser.parse_feed`
(the feed-level metadata and raw payload are opaque and never read back). -/
structure RssItem where
  external_id : String
  title : String
  text_content : String
  url : String
  author : String
  published_at : Int
deriving DecidableEq, Repr

/-- The per-entry normalization of `RSSParser.parse_feed`: identity from
entry id falling back to link, `summary or description` as body, markup
stripped through the `stripHtml` collaborator only when the body is
non-empty, timestamps defaulting to now. -/
def normalizeRssEntry (stripHtml : String → String) (now : Int) (e : RssEntry) : RssItem :=
  let content := if e.summary.getD "" = "" then e.description.getD "" else e.summary.getD ""
  { external_id := e.entry_id.getD (e.link.getD "")
    title := e.title.getD ""
    text_content := if content = "" then content else stripHtml content
    url := e.link.getD ""
    author := if e.author.getD "" = "" then e.dc_creator.getD "" else e.author.getD ""
    published_at := e.published_at.getD now }

/-- `RSSParser.parse_feed` of app/services/rss_parser.py: the whole body is
wrapped in `try/except` — any exception while fetching or parsing the feed
(the `fetchResult` oracle) is caught, logged, and an EMPTY list is returned;
a bozo feed only logs a warning.  No error ever escapes this function. -/
def parseFeed (fetchResult : Except String (List RssEntry))
    (stripHtml : String → String) (now : Int) : List RssItem :=
  match fetchResult with
  | .error _ => []
  | .ok entries => entries.map (normalizeRssEntry stripHtml now)

/-- The per-item loop of `sync_rss_source`: overwrite title/text/url/author
of an existing row, insert an article row otherwise. -/
def rssReconcile (store : List ContentItem) (sourceId : Nat) :
    List RssItem → List ContentItem × Nat × Nat
  | [] => (store, 0, 0)
  | item :: rest =>
    if itemExists store sourceId item.external_id then
      let store2 := updateItem store sourceId item.external_id (fun it =>
        { it with
            title := some item.title
            text_content := some item.text_content
            url := some item.url
            author := some item.author })
      let r := rssReconcile store2 sourceId rest
      (r.1, r.2.1, r.2.2 + 1)
    else
      let newItem : ContentItem :=
        { id := store.length, source_id := sourceId, external_id := item.external_id,
          content_type := ContentType.article, title := some item.title,
          text_content := some item.text_content, url := some item.url,
          author := some item.author, published_at := item.published_at,
          metrics := none }
      let r := rssReconcile (store ++ [newItem]) sourceId rest
      (r.1, r.2.1 + 1, r.2.2)

/-- `sync_rss_source` of app/tasks/sync.py: a missing `feed_url` setting
raises (and so fails the run), but the feed fetch/parse itself happens
inside `RSSParser.parse_feed`, which swallows every error (see `parseFeed`),
so this function never surfaces a provider failure. -/
def syncRssSource (source : DataSource) (store : List ContentItem)
    (fetchResult : Except String (List RssEntry)) (stripHtml : String → String)
    (now : Int) : Except String (List ContentItem × Nat × Nat × Nat) :=
  match source.settings_feed_url with
  | none => .error "No feed_url found in RSS source settings"
  | some _ =>
    let feedItems := parseFeed fetchResult stripHtml now
    let r := rssReconcile store source.id feedItems
    .ok (r.1, feedItems.length, r.2.1, r.2.2)

/-- A Facebook post (the fields `sync_facebook_source` reads).  The
engagement summary counts feed `item_metadata` under keys the classifier
never reads (`likes`/`comments`/`shares`, not `public_metrics`), so they are
dropped here and the stored metrics are `none`. -/
structure FbPost where
  id : String
  message : String
  created_time : Option Int
  from_name : String
deriving DecidableEq, Repr

/-- The per-post loop of `sync_facebook_source`. -/
def facebookReconcile (store : List ContentItem) (sourceId : Nat) (now : Int) :
    List FbPost → List ContentItem × Nat × Nat
  | [] => (store, 0, 0)
  | p :: rest =>
    if itemExists store sourceId p.id then
      let store2 := updateItem store sourceId p.id (fun it =>
        { it with text_content := some p.message })
      let r := facebookReconcile store2 sourceId now rest
      (r.1, r.2.1, r.2.2 + 1)
    else
      let newItem : ContentItem :=
        { id := store.length, source_id := sourceId, external_id := p.id,
          content_type := ContentType.post, title := none,
          text_content := some p.message, url := none,
          author := some p.from_name, published_at := p.created_time.getD now,
          metrics := none }
      let r := facebookReconcile (store ++ [newItem]) sourceId now rest
      (r.1, r.2.1 + 1, r.2.2)

/-- `sync_facebook_source` of app/tasks/sync.py (same window logic as
Twitter). -/
def syncFacebookSource (source : DataSource) (store : List ContentItem)
    (fetch : Int → Except String (List FbPost)) (now : Int) :
    Except String (List ContentItem × Nat × Nat × Nat) :=
  match source.credentials with
  | none => .error "No credentials found for Facebook source"
  | some _ =>
    match fetch (twitterWindowStart source now) with
    | .error e => .error e
    | .ok posts =>
      let r := facebookReconcile store source.id now posts
      .ok (r.1, posts.length, r.2.1, r.2.2)

/-- An Instagram media item (the fields `sync_instagram_source` reads). -/
structure IgMedia where
  id : String
  caption : Option String
  timestamp : Option Int
  media_type : String
  media_url : String
  permalink : String
  username : String
deriving DecidableEq, Repr

/-- The per-media loop of `sync_instagram_source`; the title is the first
200 characters of the caption, or `None` for a falsy caption. -/
def instagramReconcile (store : List ContentItem) (sourceId : Nat) (now : Int) :
    List IgMedia → List ContentItem × Nat × Nat
  | [] => (store, 0, 0)
  | media :: rest =>
    if itemExists store sourceId media.id then
      let store2 := updateItem store sourceId media.id (fun it =>
        { it with text_content := some (media.caption.getD "") })
      let r := instagramReconcile store2 sourceId now rest
      (r.1, r.2.1, r.2.2 + 1)
    else
      let newItem : ContentItem :=
        { id := store.length, source_id := sourceId, external_id := media.id,
          content_type := ContentType.post,
          title := (media.caption.bind (fun c => if c = "" then none else some ⟨c.data.take 200⟩)),
          text_content := some (media.caption.getD ""), url := some media.permalink,
          author := some media.username, published_at := media.timestamp.getD now,
          metrics := none }
      let r := instagramReconcile (store ++ [newItem]) sourceId now rest
      (r.1, r.2.1 + 1, r.2.2)

/-- `sync_instagram_source` of app/tasks/sync.py (reads `last_sync_at` but
passes no window to the client). -/
def syncInstagramSource (source : DataSource) (store : List ContentItem)
    (fetch : Except String (List IgMedia)) (now : Int) :
    Except String (List ContentItem × Nat × Nat × Nat) :=
  match source.credentials with
  | none => .error "No credentials found for Instagram source"
  | some _ =>
    match fetch with
    | .error e => .error e
    | .ok mediaItems =>
      let r := instagramReconcile store source.id now mediaItems
      .ok (r.1, mediaItems.length, r.2.1, r.2.2)

/-- The external collaborators of one sync run: each provider fetch (as a
function of the window/offset the task computes) plus the HTML stripper used
by the RSS normalizer and the `twitter_username` credential field. -/
structure SyncOracles where
  twitterFetch : Int → Except String (List Tweet)
  rssFetch : Except String (List RssEntry)
  telegramFetch : Option Int → Except String (List TgUpdate)
  facebookFetch : Int → Except String (List FbPost)
  instagramFetch : Except String (List IgMedia)
  stripHtml : String → String
  twitterUsername : Option String

/-- `sync_data_source` of app/tasks/sync.py.  An inactive/unknown source
returns without writing a log.  Otherwise `last_sync_at` is set to the run's
start time BEFORE the per-source sync function runs (so that function reads
the already-updated value), the per-source sync is dispatched on the source
type, and one `SyncLog` row is committed: SUCCESS with the counters when no
exception surfaced (`error_message` is still `None` at the status
computation, so the PARTIAL branch is dead code), FAILED with the stringified
exception and zero counters otherwise.  Every adapter fetch happens before
any row is written, so a failed run leaves the content store unchanged.
Returns the log row, the content store and the updated source row. -/
def syncDataSource (source : DataSource) (store : List ContentItem) (o : SyncOracles)
    (startTime now : Int) : Option SyncLog × List ContentItem × DataSource :=
  if source.is_active = false then (none, store, source)
  else
    let source2 := { source with last_sync_at := some startTime }
    let result : Except String (List ContentItem × Nat × Nat × Nat) :=
      match source2.source_type with
      | SourceType.twitter => syncTwitterSource source2 store o.twitterFetch o.twitterUsername now
      | SourceType.rss => syncRssSource source2 store o.rssFetch o.stripHtml now
      | SourceType.telegram => syncTelegramSource source2 store o.telegramFetch now
      | SourceType.facebook => syncFacebookSource source2 store o.facebookFetch now
      | SourceType.instagram => syncInstagramSource source2 store o.instagramFetch now
    match result with
    | .ok (store2, fetched, n, u) =>
      (some { source_id := source.id, status := SyncStatus.success,
              items_fetched := fetched, items_new := n, items_updated := u,
              error_message := none }, store2, source2)
    | .error e =>
      (some { source_id := source.id, status := SyncStatus.failed,
              items_fetched := 0, items_new := 0, items_updated := 0,
              error_message := some e }, store, source2)

/-! ### Concrete fixtures used by closed theorems -/

/-- A content item without any classifier keyword in its text. -/
def sampleItem : ContentItem :=
  { id := 0, source_id := 1, external_id := "t1", content_type := ContentType.post,
    title := some "Hello", text_content := some "hello world", url := none,
    author := none, published_at := 100, metrics := none }

/-- An AI response whose relevance score exceeds 1. -/
def oversizedAIResponse : AIRawResult :=
  { category := some "work", relevance_score := some (3 / 2),
    importance_score := none, social_score := none, personal_score := none }

/-- An active RSS source of user 7. -/
def sampleSource : DataSource :=
  { id := 1, user_id := 7, source_type := SourceType.rss, is_active := true,
    credentials := none, settings_feed_url := some "https://example.com/feed",
    last_sync_at := none, sync_frequency_minutes := 60 }

/-- A classified row clearing every threshold used in the fixtures (the
scores are integral so that closed goals reduce in the kernel). -/
def sampleEntry : Entry :=
  { item := sampleItem
    cls := { category := CategoryType.news, relevance_score := 1,
             importance_score := 1, social_score := 0, personal_score := 0 } }

/-- A FAILED briefing of user 7. -/
def sampleFailedBriefing : Briefing :=
  { id := 5, user_id := 7, date := 0, status := BriefingStatus.failed,
    text_summary := none, audio_file_url := none, audio_duration_seconds := none,
    content_items_count := 0, generated_at := none, delivered_at := none,
    error_message := some "boom" }

/-- A DELIVERED briefing of user 7. -/
def sampleDeliveredBriefing : Briefing :=
  { id := 6, user_id := 7, date := 0, status := BriefingStatus.delivered,
    text_summary := some "done", audio_file_url := some "/storage/6.mp3",
    audio_duration_seconds := some 120, content_items_count := 3,
    generated_at := some 50, delivered_at := some 60, error_message := none }

/-- An active Twitter source (id 2) of user 7 with credentials and a
previous sync at time 100. -/
def sampleTwitterSource : DataSource :=
  { id := 2, user_id := 7, source_type := SourceType.twitter, is_active := true,
    credentials := some "enc-token", settings_feed_url := none,
    last_sync_at := some 100, sync_frequency_minutes := 60 }

/-- Three distinct tweets. -/
def tweetA : Tweet := { id := "a", text := "alpha", created_at := 110, public_metrics := ⟨1, 0, 0⟩ }

/-- Second fixture tweet. -/
def tweetB : Tweet := { id := "b", text := "beta", created_at := 120, public_metrics := ⟨2, 0, 0⟩ }

/-- Third fixture tweet. -/
def tweetC : Tweet := { id := "c", text := "gamma", created_at := 130, public_metrics := ⟨3, 0, 0⟩ }

/-- Fourth fixture tweet (fresh id for the second run). -/
def tweetD : Tweet := { id := "d", text := "delta", created_at := 210, public_metrics := ⟨0, 0, 0⟩ }

/-- Fifth fixture tweet (fresh id for the second run). -/
def tweetE : Tweet := { id := "e", text := "epsilon", created_at := 220, public_metrics := ⟨0, 0, 0⟩ }

/-- Oracles for the first fixture run: the Twitter fetch returns three fresh
tweets whatever window it is given; everything else errors. -/
def oraclesRun1 : SyncOracles :=
  { twitterFetch := fun _ => .ok [tweetA, tweetB, tweetC]
    rssFetch := .error "unused"
    telegramFetch := fun _ => .error "unused"
    facebookFetch := fun _ => .error "unused"
    instagramFetch := .error "unused"
    stripHtml := id
    twitterUsername := some "user7" }

/-- Oracles for the second fixture run: one repeated external id (`a`) and
two fresh ones. -/
def oraclesRun2 : SyncOracles :=
  { oraclesRun1 with twitterFetch := fun _ => .ok [tweetA, tweetD, tweetE] }

/-- Oracles where every provider fetch fails. -/
def failingOracles : SyncOracles :=
  { twitterFetch := fun _ => .error "twitter down"
    rssFetch := .error "network unreachable"
    telegramFetch := fun _ => .error "telegram down"
    facebookFetch := fun _ => .error "facebook down"
    instagramFetch := .error "instagram down"
    stripHtml := id
    twitterUsername := none }

/-- The content store after the first fixture sync run. -/
def storeAfterRun1 : List ContentItem :=
  (syncDataSource sampleTwitterSource [] oraclesRun1 100 100).2.1

/-- The fixture item joined with its own rule-based classification. -/
def sampleZeroEntry : Entry :=
  { item := sampleItem, cls := ruleClassify sampleItem }

/-! ### Shared helper lemmas -/

lemma parseCategoryType_mem {s : String} {c : CategoryType}
    (h : parseCategoryType s = some c) : c ∈ fixedCategories := by
  unfold parseCategoryType at h
  split_ifs at h <;> simp_all [fixedCategories]

/-- The four post-default scores of a parsed AI response. -/
def aiRawScoresInRange (r : AIRawResult) : Prop :=
  0 ≤ r.relevance_score.getD (1 / 2) ∧ r.relevance_score.getD (1 / 2) ≤ 1 ∧
  0 ≤ r.importance_score.getD (1 / 2) ∧ r.importance_score.getD (1 / 2) ≤ 1 ∧
  0 ≤ r.social_score.getD (3 / 10) ∧ r.social_score.getD (3 / 10) ≤ 1 ∧
  0 ≤ r.personal_score.getD (3 / 10) ∧ r.personal_score.getD (3 / 10) ≤ 1

/-! ### C2 -/

/-- C2 (counterexample): through the AI path, a successfully parsed response
with `relevance_score = 1.5` is returned with that score unclamped, so not
all classification outputs have their four scores within `[0.0, 1.0]`. -/
theorem aiClassify_score_escapes_range :
    ¬ scoresInRange (aiClassify (Except.ok oversizedAIResponse) sampleItem) ∧
      (aiClassify (Except.ok oversizedAIResponse) sampleItem).relevance_score = 3 / 2 := by
  constructor
  · intro h
    have h2 : (aiClassify (Except.ok oversizedAIResponse) sampleItem).relevance_score
        = 3 / 2 := rfl
    have := h.2.1
    rw [h2] at this
    norm_num at this
  · rfl

/-- C2 (amended): through the rule-based path all four scores lie within
`[0.0, 1.0]` and the category is in the fixed set; through the AI path the
category is always in the fixed set (an unparseable category string triggers
the rule-based fallback), the scores are in `[0.0, 1.0]` whenever the AI
path raises (the fallback is rule-based) and, on a successfully parsed
response, exactly when the response's own post-default scores are — they are
passed through unclamped. -/
theorem classification_range :
    (∀ content : ContentItem,
      scoresInRange (ruleClassify content) ∧
        (ruleClassify content).category ∈ fixedCategories) ∧
    (∀ (response : Except String AIRawResult) (content : ContentItem),
      (aiClassify response content).category ∈ fixedCategories) ∧
    (∀ (response : Except String AIRawResult) (content : ContentItem),
      aiPathRaises response = true → scoresInRange (aiClassify response content)) ∧
    (∀ (r : AIRawResult) (content : ContentItem),
      parseCategoryType (r.category.getD "other") ≠ none →
        (aiRawScoresInRange r ↔ scoresInRange (aiClassify (Except.ok r) content))) := by
  refine ⟨ruleClassify_valid, ?_, ?_, ?_⟩
  · intro response content
    match response with
    | .error e => exact (ruleClassify_valid content).2
    | .ok r =>
      cases hp : parseCategoryType (r.category.getD "other") with
      | none => simp only [aiClassify, hp]; exact (ruleClassify_valid content).2
      | some cat => simp only [aiClassify, hp]; exact parseCategoryType_mem hp
  · intro response content hr
    match response with
    | .error e => exact (ruleClassify_valid content).1
    | .ok r =>
      unfold aiPathRaises at hr
      rw [Option.isNone_iff_eq_none] at hr
      simp only [aiClassify, hr]
      exact (ruleClassify_valid content).1
  · intro r content hp
    cases hc : parseCategoryType (r.category.getD "other") with
    | none => exact absurd hc hp
    | some cat =>
      simp only [aiClassify, hc]
      unfold aiRawScoresInRange scoresInRange
      simp only

/-- C2 (witness): the amended theorem at concrete inputs — the rule-based
classification of the fixture item is in range, the AI fallback on an
upstream error is in range, and for the oversized fixture response the
bridge shows the out-of-range input score yields an out-of-range output. -/
theorem classification_range_witness :
    scoresInRange (ruleClassify sampleItem) ∧
      scoresInRange (aiClassify (Except.error "timeout") sampleItem) ∧
      ((aiRawScoresInRange oversizedAIResponse) ↔
        scoresInRange (aiClassify (Except.ok oversizedAIResponse) sampleItem)) :=
  ⟨(classification_range.1 sampleItem).1,
    classification_range.2.2.1 (Except.error "timeout") sampleItem rfl,
    classification_range.2.2.2 oversizedAIResponse sampleItem (by decide)⟩

/-! ### C3 -/

/-- C3: whenever the AI classification path raises (upstream error,
malformed response, or a category string outside the enumeration), classify
still returns exactly the rule-based classification of the item — a valid
classification with clamped scores and a category of the fixed set — and
the exception does not propagate (`aiClassify` is total). -/
theorem aiClassify_fallback :
    ∀ (response : Except String AIRawResult) (content : ContentItem),
      aiPathRaises response = true →
        aiClassify response content = ruleClassify content ∧
          scoresInRange (aiClassify response content) ∧
          (aiClassify response content).category ∈ fixedCategories := by
  intro response content hr
  have heq : aiClassify response content = ruleClassify content := by
    match response with
    | .error e => rfl
    | .ok r =>
      unfold aiPathRaises at hr
      rw [Option.isNone_iff_eq_none] at hr
      simp only [aiClassify, hr]
  refine ⟨heq, ?_, ?_⟩
  · rw [heq]; exact (ruleClassify_valid content).1
  · rw [heq]; exact (ruleClassify_valid content).2

/-- C3 (witness): the fallback theorem applied to a concrete upstream
error. -/
theorem aiClassify_fallback_witness :
    aiClassify (Except.error "rate limited") sampleItem = ruleClassify sampleItem ∧
      scoresInRange (aiClassify (Except.error "rate limited") sampleItem) ∧
      (aiClassify (Except.error "rate limited") sampleItem).category ∈ fixedCategories :=
  aiClassify_fallback (Except.error "rate limited") sampleItem rfl

/-! ### Selector lemmas shared by several claims -/

lemma mem_select_candidates {entries : List Entry} {sources : List DataSource}
    {userId : Nat} {prefMinRelevance : Option ℚ} {maxItems : Option Nat}
    {cutoffTime : Int} {e : Entry}
    (h : e ∈ selectContentForBriefing entries sources userId prefMinRelevance
      maxItems cutoffTime) :
    e ∈ briefingCandidates entries sources userId
      (effectiveMinRelevance prefMinRelevance) cutoffTime := by
  rw [selectContentForBriefing_eq] at h
  have h2 := List.mem_of_mem_take h
  rwa [List.mem_insertionSort] at h2

lemma mem_candidates_relevance {entries : List Entry} {sources : List DataSource}
    {userId : Nat} {minRelevance : ℚ} {cutoffTime : Int} {e : Entry}
    (h : e ∈ briefingCandidates entries sources userId minRelevance cutoffTime) :
    minRelevance ≤ e.cls.relevance_score := by
  unfold briefingCandidates candidatePred at h
  have h2 := (List.mem_filter.mp h).2
  simp only [Bool.and_eq_true, decide_eq_true_eq] at h2
  exact h2.2

lemma generationPhase_status (briefing : Briefing) (items : List Entry)
    (summaryText : String) (audioResult : Except String String) (now : Int) :
    (generationPhase briefing items summaryText audioResult now).1.status =
        BriefingStatus.failed ∨
      (generationPhase briefing items summaryText audioResult now).1.status =
        BriefingStatus.ready := by
  unfold generationPhase
  split
  · simp
  · cases audioResult <;> simp

lemma calculateScore_eq_zero (text : String) (keywords : List String)
    (h : ∀ kw ∈ keywords, containsKeyword text kw = false) :
    calculateScore text keywords = 0 := by
  unfold calculateScore
  split
  · rfl
  · have hf : keywords.filter (fun kw => containsKeyword text kw) = [] :=
      List.filter_eq_nil_iff.mpr (by intro kw hkw; simp [h kw hkw])
    rw [hf]
    norm_num

/-! ### C10 -/

/-- C10: a content item whose lowercased title and body contain none of the
classifier's keywords is classified OTHER with relevance exactly 0, and an
entry carrying that classification is never selected into a briefing under
any positive effective relevance threshold. -/
theorem noKeyword_item_never_selected :
    ∀ (content : ContentItem),
      (∀ kw ∈ ALL_KEYWORDS, containsKeyword (fullTextOf content) kw = false) →
        (ruleClassify content).category = CategoryType.other ∧
          (ruleClassify content).relevance_score = 0 ∧
          ∀ (entries : List Entry) (sources : List DataSource) (userId : Nat)
            (prefMinRelevance : Option ℚ) (maxItems : Option Nat) (cutoffTime : Int)
            (e : Entry),
            0 < effectiveMinRelevance prefMinRelevance →
            e.cls = ruleClassify content →
            e ∉ selectContentForBriefing entries sources userId prefMinRelevance
              maxItems cutoffTime := by
  intro content hkw
  have hmem : ∀ (kws : List String), (∀ kw ∈ kws, kw ∈ ALL_KEYWORDS) →
      calculateScore (fullTextOf content) kws = 0 := by
    intro kws hsub
    exact calculateScore_eq_zero _ _ (fun kw hk => hkw kw (hsub kw hk))
  have h1 : calculateScore (fullTextOf content) WORK_KEYWORDS = 0 :=
    hmem _ (by intro kw hk; simp [ALL_KEYWORDS, List.mem_append]; tauto)
  have h2 : calculateScore (fullTextOf content) PERSONAL_KEYWORDS = 0 :=
    hmem _ (by intro kw hk; simp [ALL_KEYWORDS, List.mem_append]; tauto)
  have h3 : calculateScore (fullTextOf content) HOBBY_KEYWORDS = 0 :=
    hmem _ (by intro kw hk; simp [ALL_KEYWORDS, List.mem_append]; tauto)
  have h4 : calculateScore (fullTextOf content) NEWS_KEYWORDS = 0 :=
    hmem _ (by intro kw hk; simp [ALL_KEYWORDS, List.mem_append]; tauto)
  have h5 : calculateScore (fullTextOf content) IMPORTANT_KEYWORDS = 0 :=
    hmem _ (by intro kw hk; simp [ALL_KEYWORDS, List.mem_append]; tauto)
  have hcat : (ruleClassify content).category = CategoryType.other := by
    have hc : (ruleClassify content).category = argmaxCategory
      [(CategoryType.personal, calculateScore (fullTextOf content) PERSONAL_KEYWORDS),
       (CategoryType.hobby, calculateScore (fullTextOf content) HOBBY_KEYWORDS),
       (CategoryType.news, calculateScore (fullTextOf content) NEWS_KEYWORDS),
       (CategoryType.important, calculateScore (fullTextOf content) IMPORTANT_KEYWORDS),
       (CategoryType.other, 1 / 10)]
      (CategoryType.work, calculateScore (fullTextOf content) WORK_KEYWORDS) := rfl
    rw [hc, h1, h2, h3, h4, h5]
    norm_num [argmaxCategory, List.foldl_cons, List.foldl_nil]
  have hrel : (ruleClassify content).relevance_score = 0 := by
    have hr : (ruleClassify content).relevance_score = min
      (max (max (max (calculateScore (fullTextOf content) WORK_KEYWORDS)
        (calculateScore (fullTextOf content) PERSONAL_KEYWORDS))
        (calculateScore (fullTextOf content) HOBBY_KEYWORDS))
        (calculateScore (fullTextOf content) NEWS_KEYWORDS)) 1 := rfl
    rw [hr, h1, h2, h3, h4]
    norm_num
  refine ⟨hcat, hrel, ?_⟩
  intro entries sources userId prefMinRelevance maxItems cutoffTime e hpos hcls hsel
  have hc := mem_candidates_relevance (mem_select_candidates hsel)
  rw [hcls, hrel] at hc
  exact absurd (lt_of_lt_of_le hpos hc) (lt_irrefl 0)

/-- C10 (witness): the fixture item "hello world" (no Russian keyword
vocabulary) under the default threshold 0.3. -/
theorem noKeyword_item_never_selected_witness :
    (ruleClassify sampleItem).category = CategoryType.other ∧
      (ruleClassify sampleItem).relevance_score = 0 ∧
      sampleZeroEntry ∉ selectContentForBriefing [sampleZeroEntry] [sampleSource] 7
        none none 0 := by
  have h := noKeyword_item_never_selected sampleItem (by decide)
  exact ⟨h.1, h.2.1,
    h.2.2 [sampleZeroEntry] [sampleSource] 7 none none 0 sampleZeroEntry
      (by norm_num [effectiveMinRelevance, MIN_RELEVANCE_SCORE]) rfl⟩

/-! ### C1 -/

/-- C1 (counterexample): for `max_items = 0` the selector does NOT return at
most `max_items` items — Python's `max_items or settings...` treats 0 as
absent, substitutes the default of 10, and here returns 1 item. -/
theorem select_maxItems_zero_escapes_bound :
    ¬ ((selectContentForBriefing [sampleEntry] [sampleSource] 7 (some 0)
        (some 0) 0).length ≤ 0) := by
  decide

/-- C1 (amended): for every user, the selector returns at most
`effectiveMaxItems max_items` items, where the effective limit is `max_items`
itself for every provided positive value and the system default (10) when
`max_items` is omitted or 0 (Python's falsy `or`); the result is sorted by
(relevance desc, importance desc); and whenever the candidate set is no
larger than the effective limit, the result is a permutation of (i.e.
contains exactly) all candidates. -/
theorem select_bound_sorted_complete :
    (∀ m : Nat, 1 ≤ m → effectiveMaxItems (some m) = m) ∧
    ∀ (entries : List Entry) (sources : List DataSource) (userId : Nat)
      (prefMinRelevance : Option ℚ) (maxItems : Option Nat) (cutoffTime : Int),
      (selectContentForBriefing entries sources userId prefMinRelevance maxItems
        cutoffTime).length ≤ effectiveMaxItems maxItems ∧
      List.Sorted entryGE (selectContentForBriefing entries sources userId
        prefMinRelevance maxItems cutoffTime) ∧
      ((briefingCandidates entries sources userId
          (effectiveMinRelevance prefMinRelevance) cutoffTime).length ≤
          effectiveMaxItems maxItems →
        List.Perm (selectContentForBriefing entries sources userId prefMinRelevance
            maxItems cutoffTime)
          (briefingCandidates entries sources userId
            (effectiveMinRelevance prefMinRelevance) cutoffTime)) := by
  constructor
  · intro m hm
    have hm0 : m ≠ 0 := by omega
    simp [effectiveMaxItems, hm0]
  intro entries sources userId prefMinRelevance maxItems cutoffTime
  rw [selectContentForBriefing_eq]
  refine ⟨List.length_take_le _ _, ?_, ?_⟩
  · exact List.Pairwise.sublist (List.take_sublist _ _)
      (List.sorted_insertionSort entryGE _)
  · intro hlen
    have hslen : (List.insertionSort entryGE
        (briefingCandidates entries sources userId
          (effectiveMinRelevance prefMinRelevance) cutoffTime)).length ≤
        effectiveMaxItems maxItems := by
      rwa [(List.perm_insertionSort entryGE _).length_eq]
    rw [List.take_of_length_le hslen]
    exact List.perm_insertionSort entryGE _

/-- C1 (witness): the amended theorem at a concrete input — limit 1 on one
candidate: one item returned, sorted, and the single candidate is returned
in full. -/
theorem select_bound_sorted_complete_witness :
    effectiveMaxItems (some 1) = 1 ∧
      (selectContentForBriefing [sampleEntry] [sampleSource] 7 (some 0)
        (some 1) 0).length ≤ effectiveMaxItems (some 1) ∧
      List.Perm (selectContentForBriefing [sampleEntry] [sampleSource] 7
          (some 0) (some 1) 0)
        (briefingCandidates [sampleEntry] [sampleSource] 7
          (effectiveMinRelevance (some 0)) 0) := by
  have h := select_bound_sorted_complete
  have h2 := h.2 [sampleEntry] [sampleSource] 7 (some 0) (some 1) 0
  exact ⟨h.1 1 (by decide), h2.1, h2.2.2 (by decide)⟩

/-! ### C4 -/

/-- C4: when the briefing of a `(user, date)` is DELIVERED, both generation
triggers — the API endpoint and the Celery task — return the existing record
with all fields unchanged, write no new row, no links, and leave the store
untouched. -/
theorem delivered_briefing_trigger_noop :
    ∀ (store : List Briefing) (userId : Nat) (targetDate : Int) (newId : Nat)
      (b : Briefing) (entries : List Entry) (sources : List DataSource)
      (prefMinRelevance : Option ℚ) (summaryText : String)
      (audioResult : Except String String) (cutoffTime now : Int),
      findBriefingByUserDate store userId targetDate = some b →
      b.status = BriefingStatus.delivered →
        triggerBriefingGeneration store userId targetDate newId = (store, b) ∧
          generateBriefingTask store true userId targetDate newId entries sources
              prefMinRelevance summaryText audioResult cutoffTime now =
            (store, [], some b) := by
  intro store userId targetDate newId b entries sources prefMinRelevance summaryText
    audioResult cutoffTime now hfind hst
  constructor
  · unfold triggerBriefingGeneration
    rw [hfind]
    simp [hst]
  · unfold generateBriefingTask
    rw [hfind]
    simp [hst]

/-- C4 (witness): the no-op at a concrete delivered fixture briefing. -/
theorem delivered_briefing_trigger_noop_witness :
    triggerBriefingGeneration [sampleDeliveredBriefing] 7 0 9 =
        ([sampleDeliveredBriefing], sampleDeliveredBriefing) ∧
      generateBriefingTask [sampleDeliveredBriefing] true 7 0 9 [] [] none "s"
          (Except.ok "/storage/x.mp3") 0 10 =
        ([sampleDeliveredBriefing], [], some sampleDeliveredBriefing) :=
  delivered_briefing_trigger_noop [sampleDeliveredBriefing] 7 0 9
    sampleDeliveredBriefing [] [] none "s" (Except.ok "/storage/x.mp3") 0 10
    (by decide) (by decide)

/-! ### C5 -/

/-- C5: when the user is active, the `(user, date)` briefing is not already
DELIVERED, and the selector finds zero candidates, the generation task
produces a briefing with status FAILED carrying the non-empty error message
"No content available for briefing", and writes zero BriefingContent link
rows. -/
theorem zero_candidates_briefing_failed :
    ∀ (bstore : List Briefing) (userId : Nat) (targetDate : Int) (newId : Nat)
      (entries : List Entry) (sources : List DataSource)
      (prefMinRelevance : Option ℚ) (summaryText : String)
      (audioResult : Except String String) (cutoffTime now : Int),
      (∀ b, findBriefingByUserDate bstore userId targetDate = some b →
        b.status ≠ BriefingStatus.delivered) →
      selectContentForBriefing entries sources userId prefMinRelevance none
        cutoffTime = [] →
        ∃ bf, (generateBriefingTask bstore true userId targetDate newId entries
            sources prefMinRelevance summaryText audioResult cutoffTime now).2.2 =
              some bf ∧
          bf.status = BriefingStatus.failed ∧
          bf.error_message = some "No content available for briefing" ∧
          "No content available for briefing" ≠ "" ∧
          (generateBriefingTask bstore true userId targetDate newId entries sources
            prefMinRelevance summaryText audioResult cutoffTime now).2.1 =
            ([] : List BriefingContent) := by
  intro bstore userId targetDate newId entries sources prefMinRelevance summaryText
    audioResult cutoffTime now hnotDelivered hempty
  unfold generateBriefingTask
  cases hfind : findBriefingByUserDate bstore userId targetDate with
  | some existing =>
    have hne := hnotDelivered existing hfind
    simp only [Bool.true_eq_false, if_false, hfind, hne, if_neg hne, hempty]
    unfold generationPhase
    simp
  | none =>
    simp only [Bool.true_eq_false, if_false, hfind, hempty]
    unfold generationPhase
    simp

/-- C5 (witness): an empty store and no content entries at all. -/
theorem zero_candidates_briefing_failed_witness :
    ∃ bf, (generateBriefingTask [] true 7 0 9 [] [] none "s"
        (Except.ok "/storage/x.mp3") 0 10).2.2 = some bf ∧
      bf.status = BriefingStatus.failed ∧
      bf.error_message = some "No content available for briefing" ∧
      "No content available for briefing" ≠ "" ∧
      (generateBriefingTask [] true 7 0 9 [] [] none "s"
        (Except.ok "/storage/x.mp3") 0 10).2.1 = ([] : List BriefingContent) :=
  zero_candidates_briefing_failed [] 7 0 9 [] [] none "s"
    (Except.ok "/storage/x.mp3") 0 10 (by intro b hb; simp [findBriefingByUserDate] at hb)
    (by rfl)

/-! ### C9 -/

/-- C9 (counterexample): `mark_briefing_delivered` moves a FAILED briefing
(a state other than READY) straight to DELIVERED — the endpoint never checks
the prior status. -/
theorem markDelivered_from_failed :
    sampleFailedBriefing.status ≠ BriefingStatus.ready ∧
      ((markBriefingDelivered [sampleFailedBriefing] 5 7 99).2.map
        Briefing.status) = some BriefingStatus.delivered := by
  decide

/-- C9 (amended): generation-side transitions are as claimed — a trigger
returns a GENERATING briefing unless the existing one is DELIVERED (in which
case it is returned unchanged), and the generation task only ever finishes a
briefing as READY or FAILED, returning DELIVERED only for a briefing that
was already stored DELIVERED; but the delivery acknowledgment endpoint sets
ANY briefing it finds to DELIVERED regardless of its prior status, not just
READY ones. -/
theorem briefing_status_transitions :
    (∀ (store : List Briefing) (briefingId userId : Nat) (now : Int) (b2 : Briefing),
      (markBriefingDelivered store briefingId userId now).2 = some b2 →
        b2.status = BriefingStatus.delivered) ∧
    (∀ (store : List Briefing) (userId : Nat) (targetDate : Int) (newId : Nat),
      (triggerBriefingGeneration store userId targetDate newId).2.status =
          BriefingStatus.generating ∨
        ((triggerBriefingGeneration store userId targetDate newId).2.status =
            BriefingStatus.delivered ∧
          triggerBriefingGeneration store userId targetDate newId =
            (store, (triggerBriefingGeneration store userId targetDate newId).2))) ∧
    (∀ (bstore : List Briefing) (userActive : Bool) (userId : Nat) (targetDate : Int)
      (newId : Nat) (entries : List Entry) (sources : List DataSource)
      (prefMinRelevance : Option ℚ) (summaryText : String)
      (audioResult : Except String String) (cutoffTime now : Int) (bf : Briefing),
      (generateBriefingTask bstore userActive userId targetDate newId entries sources
        prefMinRelevance summaryText audioResult cutoffTime now).2.2 = some bf →
        bf.status = BriefingStatus.ready ∨ bf.status = BriefingStatus.failed ∨
          (bf.status = BriefingStatus.delivered ∧
            findBriefingByUserDate bstore userId targetDate = some bf)) := by
  refine ⟨?_, ?_, ?_⟩
  · intro store briefingId userId now b2 h
    unfold markBriefingDelivered at h
    cases hf : store.find? (fun b => b.id == briefingId && b.user_id == userId) with
    | none => rw [hf] at h; simp at h
    | some b => rw [hf] at h; simp at h; rw [← h]
  · intro store userId targetDate newId
    unfold triggerBriefingGeneration
    cases hf : findBriefingByUserDate store userId targetDate with
    | none => simp [newBriefing]
    | some existing =>
      by_cases hd : existing.status = BriefingStatus.delivered
      · simp [hd]
      · simp [hd]
  · intro bstore userActive userId targetDate newId entries sources prefMinRelevance
      summaryText audioResult cutoffTime now bf h
    by_cases hact : userActive = false
    · simp [generateBriefingTask, hact] at h
    · have hat : userActive = true := by revert hact; cases userActive <;> simp
      cases hf : findBriefingByUserDate bstore userId targetDate with
      | some existing =>
        by_cases hd : existing.status = BriefingStatus.delivered
        · simp [generateBriefingTask, hat, hf, hd] at h
          right; right
          rw [← h]
          exact ⟨hd, rfl⟩
        · simp [generateBriefingTask, hat, hf, hd] at h
          rcases generationPhase_status { existing with status := BriefingStatus.generating }
            (selectContentForBriefing entries sources userId prefMinRelevance none
              cutoffTime) summaryText audioResult now with hs | hs
          · right; left; rw [← h]; exact hs
          · left; rw [← h]; exact hs
      | none =>
        simp [generateBriefingTask, hat, hf] at h
        rcases generationPhase_status (newBriefing newId userId targetDate
            BriefingStatus.generating)
          (selectContentForBriefing entries sources userId prefMinRelevance none
            cutoffTime) summaryText audioResult now with hs | hs
        · right; left; rw [← h]; exact hs
        · left; rw [← h]; exact hs

/-- C9 (witness): the amended transition theorem at concrete inputs — the
acknowledgment of the failed fixture briefing comes out DELIVERED, a fresh
trigger comes out GENERATING (or a delivered no-op), and a concrete task run
with no content finishes READY or FAILED (or was already delivered). -/
theorem briefing_status_transitions_witness :
    ({ sampleFailedBriefing with
        status := BriefingStatus.delivered
        delivered_at := some 99 } : Briefing).status = BriefingStatus.delivered ∧
      ((triggerBriefingGeneration [] 7 0 9).2.status = BriefingStatus.generating ∨
        ((triggerBriefingGeneration [] 7 0 9).2.status = BriefingStatus.delivered ∧
          triggerBriefingGeneration [] 7 0 9 =
            ([], (triggerBriefingGeneration [] 7 0 9).2))) ∧
      (({ newBriefing 9 7 0 BriefingStatus.generating with
            status := BriefingStatus.failed
            error_message := some "No content available for briefing" } : Briefing).status =
          BriefingStatus.ready ∨
        ({ newBriefing 9 7 0 BriefingStatus.generating with
            status := BriefingStatus.failed
            error_message := some "No content available for briefing" } : Briefing).status =
          BriefingStatus.failed ∨
        (({ newBriefing 9 7 0 BriefingStatus.generating with
            status := BriefingStatus.failed
            error_message := some "No content available for briefing" } : Briefing).status =
            BriefingStatus.delivered ∧
          findBriefingByUserDate [] 7 0 = some { newBriefing 9 7 0 BriefingStatus.generating with
            status := BriefingStatus.failed
            error_message := some "No content available for briefing" })) :=
  ⟨briefing_status_transitions.1 [sampleFailedBriefing] 5 7 99 _ rfl,
    briefing_status_transitions.2.1 [] 7 0 9,
    briefing_status_transitions.2.2 [] true 7 0 9 [] [] none "s" (Except.ok "u") 0 10
      _ rfl⟩

/-! ### Reconciler counting lemmas -/

lemma itemExists_updateItem (store : List ContentItem) (sid : Nat) (eid : String)
    (f : ContentItem → ContentItem)
    (hf : ∀ it, (f it).source_id = it.source_id ∧ (f it).external_id = it.external_id)
    (sid' : Nat) (eid' : String) :
    itemExists (updateItem store sid eid f) sid' eid' = itemExists store sid' eid' := by
  unfold itemExists updateItem
  induction store with
  | nil => rfl
  | cons hd tl ih =>
    simp only [List.map_cons, List.any_cons]
    rw [ih]
    congr 1
    by_cases h : (hd.source_id == sid && hd.external_id == eid) = true
    · rw [if_pos h, (hf hd).1, (hf hd).2]
    · rw [if_neg h]

lemma itemExists_append (store : List ContentItem) (newItem : ContentItem)
    (sid : Nat) (eid : String) :
    itemExists (store ++ [newItem]) sid eid =
      (itemExists store sid eid ||
        (newItem.source_id == sid && newItem.external_id == eid)) := by
  unfold itemExists
  rw [List.any_append]
  simp

lemma twitterReconcile_counts (sid : Nat) (username : Option String) :
    ∀ (tweets : List Tweet) (store : List ContentItem),
      (tweets.map Tweet.id).Nodup →
      (twitterReconcile store sid username tweets).2.1 =
          (tweets.filter (fun t => !(itemExists store sid t.id))).length ∧
        (twitterReconcile store sid username tweets).2.2 =
          (tweets.filter (fun t => itemExists store sid t.id)).length := by
  intro tweets
  induction tweets with
  | nil => intro store _; simp [twitterReconcile]
  | cons t rest ih =>
    intro store hnd
    rw [List.map_cons, List.nodup_cons] at hnd
    have hne : ∀ t' ∈ rest, t'.id ≠ t.id := by
      intro t' ht' heq
      exact hnd.1 (heq ▸ List.mem_map_of_mem Tweet.id ht')
    by_cases hex : itemExists store sid t.id
    · have hkey : ∀ t' : Tweet, itemExists
          (updateItem store sid t.id (twitterUpdateFun t)) sid t'.id =
          itemExists store sid t'.id := by
        intro t'
        exact itemExists_updateItem store sid t.id (twitterUpdateFun t)
          (fun it => ⟨rfl, rfl⟩) sid t'.id
      have hrec := ih (updateItem store sid t.id (twitterUpdateFun t)) hnd.2
      simp only [twitterReconcile, hex, if_true]
      constructor
      · rw [hrec.1, List.filter_cons, List.filter_congr (fun t' _ => by rw [hkey t'])]
        simp [hex]
      · rw [hrec.2, List.filter_cons, List.filter_congr (fun t' _ => by rw [hkey t'])]
        simp [hex]
    · have hkey : ∀ t' ∈ rest,
          itemExists (store ++ [twitterNewItem store sid username t]) sid t'.id =
            itemExists store sid t'.id := by
        intro t' ht'
        rw [itemExists_append]
        have : (t.id == t'.id) = false := by
          simp only [beq_eq_false_iff_ne, ne_eq]
          exact fun h => hne t' ht' h.symm
        simp [twitterNewItem, this]
      have hrec := ih (store ++ [twitterNewItem store sid username t]) hnd.2
      simp only [twitterReconcile, hex, if_false]
      constructor
      · rw [hrec.1, List.filter_cons, List.filter_congr (fun t' ht' => by rw [hkey t' ht'])]
        simp [hex]
      · rw [hrec.2, List.filter_cons, List.filter_congr (fun t' ht' => by rw [hkey t' ht'])]
        simp [hex]

/-- The Telegram "is counted as new" predicate: the update carries a message
whose id is not yet stored. -/
def tgIsNew (store : List ContentItem) (sid : Nat) (u : TgUpdate) : Bool :=
  match u.message with
  | none => false
  | some m => !(itemExists store sid (tgExternalId m))

/-- The Telegram "is counted as updated" predicate. -/
def tgIsUpdated (store : List ContentItem) (sid : Nat) (u : TgUpdate) : Bool :=
  match u.message with
  | none => false
  | some m => itemExists store sid (tgExternalId m)

lemma telegramReconcile_counts (sid : Nat) (now : Int) :
    ∀ (updates : List TgUpdate) (store : List ContentItem),
      ((updates.filterMap TgUpdate.message).map tgExternalId).Nodup →
      (telegramReconcile store sid now updates).2.1 =
          (updates.filter (tgIsNew store sid)).length ∧
        (telegramReconcile store sid now updates).2.2 =
          (updates.filter (tgIsUpdated store sid)).length := by
  intro updates
  induction updates with
  | nil => intro store _; simp [telegramReconcile]
  | cons u rest ih =>
    intro store hnd
    cases hm : u.message with
    | none =>
      have hnd' : ((rest.filterMap TgUpdate.message).map tgExternalId).Nodup := by
        rwa [List.filterMap_cons, hm] at hnd
      have hrec := ih store hnd'
      simp only [telegramReconcile, hm]
      refine ⟨?_, ?_⟩
      · rw [hrec.1, List.filter_cons]
        simp [tgIsNew, hm]
      · rw [hrec.2, List.filter_cons]
        simp [tgIsUpdated, hm]
    | some m =>
      rw [List.filterMap_cons, hm, List.map_cons, List.nodup_cons] at hnd
      have hne : ∀ u' ∈ rest, ∀ m', u'.message = some m' →
          tgExternalId m' ≠ tgExternalId m := by
        intro u' hu' m' hm' heq
        exact hnd.1 (heq ▸ List.mem_map_of_mem tgExternalId
          (List.mem_filterMap.mpr ⟨u', hu', hm'⟩))
      by_cases hex : itemExists store sid (tgExternalId m)
      · have hrec := ih store hnd.2
        simp only [telegramReconcile, hm, hex, if_true]
        refine ⟨?_, ?_⟩
        · rw [hrec.1, List.filter_cons]
          simp [tgIsNew, hm, hex]
        · rw [hrec.2, List.filter_cons]
          simp [tgIsUpdated, hm, hex]
      · have hkey : ∀ u' ∈ rest, ∀ m', u'.message = some m' →
            itemExists (store ++ [tgNewItem store sid now m]) sid
              (tgExternalId m') = itemExists store sid (tgExternalId m') := by
          intro u' hu' m' hm'
          rw [itemExists_append]
          have : (tgExternalId m == tgExternalId m') = false := by
            simp only [beq_eq_false_iff_ne, ne_eq]
            exact fun h => hne u' hu' m' hm' h.symm
          simp [tgNewItem, this]
        have hrec := ih (store ++ [tgNewItem store sid now m]) hnd.2
        have hcongr1 : rest.filter (tgIsNew (store ++ [tgNewItem store sid now m]) sid) =
            rest.filter (tgIsNew store sid) := by
          apply List.filter_congr
          intro u' hu'
          unfold tgIsNew
          cases hm' : u'.message with
          | none => rfl
          | some m' => simp only [hkey u' hu' m' hm']
        have hcongr2 : rest.filter (tgIsUpdated (store ++ [tgNewItem store sid now m]) sid) =
            rest.filter (tgIsUpdated store sid) := by
          apply List.filter_congr
          intro u' hu'
          unfold tgIsUpdated
          cases hm' : u'.message with
          | none => rfl
          | some m' => simp only [hkey u' hu' m' hm']
        simp only [telegramReconcile, hm, hex, if_false]
        refine ⟨?_, ?_⟩
        · rw [hrec.1, hcongr1, List.filter_cons]
          simp [tgIsNew, hm, hex]
        · rw [hrec.2, hcongr2, List.filter_cons]
          simp [tgIsUpdated, hm, hex]

/-! ### C6 -/

/-- C6: the Twitter reconciler reports fetched equal to the number of items
received and counts each item as new exactly when no stored row with its
(source, external_id) exists, as updated otherwise; the Telegram reconciler
does the same over the updates that carry a message; and the two spec
scenarios hold: 3 fresh tweets over an empty source give (fetched 3, new 3,
updated 0) with 3 stored items, a second run with 1 repeated external id and
2 fresh ones gives (fetched 3, new 2, updated 1) with 5 stored items. -/
theorem reconciler_counts :
    (∀ (store : List ContentItem) (sid : Nat) (username : Option String)
      (tweets : List Tweet), (tweets.map Tweet.id).Nodup →
        (twitterReconcile store sid username tweets).2.1 =
            (tweets.filter (fun t => !(itemExists store sid t.id))).length ∧
          (twitterReconcile store sid username tweets).2.2 =
            (tweets.filter (fun t => itemExists store sid t.id)).length) ∧
    (∀ (store : List ContentItem) (sid : Nat) (now : Int) (updates : List TgUpdate),
      ((updates.filterMap TgUpdate.message).map tgExternalId).Nodup →
        (telegramReconcile store sid now updates).2.1 =
            (updates.filter (tgIsNew store sid)).length ∧
          (telegramReconcile store sid now updates).2.2 =
            (updates.filter (tgIsUpdated store sid)).length) ∧
    (∀ (source : DataSource) (store : List ContentItem)
      (fetch : Int → Except String (List Tweet)) (username : Option String)
      (now : Int) (tweets : List Tweet) (c : String),
      source.credentials = some c →
      fetch (twitterWindowStart source now) = .ok tweets →
        syncTwitterSource source store fetch username now =
          .ok ((twitterReconcile store source.id username tweets).1, tweets.length,
            (twitterReconcile store source.id username tweets).2.1,
            (twitterReconcile store source.id username tweets).2.2)) ∧
    (∀ (source : DataSource) (store : List ContentItem)
      (fetch : Option Int → Except String (List TgUpdate)) (now : Int)
      (updates : List TgUpdate) (c : String),
      source.credentials = some c →
      fetch (telegramOffset source) = .ok updates →
        syncTelegramSource source store fetch now =
          .ok ((telegramReconcile store source.id now updates).1, updates.length,
            (telegramReconcile store source.id now updates).2.1,
            (telegramReconcile store source.id now updates).2.2)) ∧
    ((syncDataSource sampleTwitterSource [] oraclesRun1 100 100).1 =
        some { source_id := 2, status := SyncStatus.success, items_fetched := 3,
               items_new := 3, items_updated := 0, error_message := none } ∧
      storeAfterRun1.length = 3) ∧
    ((syncDataSource sampleTwitterSource storeAfterRun1 oraclesRun2 200 200).1 =
        some { source_id := 2, status := SyncStatus.success, items_fetched := 3,
               items_new := 2, items_updated := 1, error_message := none } ∧
      (syncDataSource sampleTwitterSource storeAfterRun1 oraclesRun2 200 200).2.1.length
        = 5) := by
  refine ⟨?_, ?_, ?_, ?_, ?_, ?_⟩
  · intro store sid username tweets hnd
    exact twitterReconcile_counts sid username tweets store hnd
  · intro store sid now updates hnd
    exact telegramReconcile_counts sid now updates store hnd
  · intro source store fetch username now tweets c hc hfetch
    simp [syncTwitterSource, hc, hfetch]
  · intro source store fetch now updates c hc hfetch
    simp [syncTelegramSource, hc, hfetch]
  · exact ⟨by decide, by decide⟩
  · exact ⟨by decide, by decide⟩

/-- C6 (witness): the counting conjuncts applied to the concrete fixture
batches, with the distinct-id hypotheses checked by evaluation. -/
theorem reconciler_counts_witness :
    ((twitterReconcile [] 2 (some "user7") [tweetA, tweetB, tweetC]).2.1 =
        ([tweetA, tweetB, tweetC].filter (fun t => !(itemExists [] 2 t.id))).length ∧
      (twitterReconcile [] 2 (some "user7") [tweetA, tweetB, tweetC]).2.2 =
        ([tweetA, tweetB, tweetC].filter (fun t => itemExists [] 2 t.id)).length) ∧
      syncTwitterSource sampleTwitterSource [] oraclesRun1.twitterFetch
          oraclesRun1.twitterUsername 100 =
        .ok ((twitterReconcile [] 2 oraclesRun1.twitterUsername
            [tweetA, tweetB, tweetC]).1, 3,
          (twitterReconcile [] 2 oraclesRun1.twitterUsername
            [tweetA, tweetB, tweetC]).2.1,
          (twitterReconcile [] 2 oraclesRun1.twitterUsername
            [tweetA, tweetB, tweetC]).2.2) :=
  ⟨reconciler_counts.1 [] 2 (some "user7") [tweetA, tweetB, tweetC] (by decide),
    reconciler_counts.2.2.1 sampleTwitterSource [] oraclesRun1.twitterFetch
      oraclesRun1.twitterUsername 100 [tweetA, tweetB, tweetC] "enc-token" rfl rfl⟩

/-! ### C7 -/

/-- C7: `sync_data_source` overwrites `last_sync_at` with the run's start
time BEFORE the per-source sync reads it, so the window passed to the
adapter always starts at this run's start time — never at the previously
recorded `last_sync_at` (whenever that differs), and the 24-hour default
branch is unreachable from `sync_data_source`; the whole run only ever
consults the fetch oracle at `startTime`. -/
theorem sync_window_starts_at_run_start :
    (∀ (source : DataSource) (startTime now : Int),
      twitterWindowStart { source with last_sync_at := some startTime } now =
        startTime) ∧
    (∀ (source : DataSource) (startTime now tPrev : Int),
      source.last_sync_at = some tPrev → tPrev ≠ startTime →
        twitterWindowStart { source with last_sync_at := some startTime } now ≠ tPrev) ∧
    (∀ (source : DataSource) (store : List ContentItem) (o : SyncOracles)
      (startTime now : Int),
      syncDataSource source store o startTime now =
        syncDataSource source store
          { o with twitterFetch := fun _ => o.twitterFetch startTime } startTime now) := by
  refine ⟨?_, ?_, ?_⟩
  · intro source startTime now
    rfl
  · intro source startTime now tPrev _ hne
    intro h
    exact hne (h ▸ rfl)
  · intro source store o startTime now
    by_cases hact : source.is_active = false
    · simp [syncDataSource, hact]
    · cases htype : source.source_type <;>
        simp [syncDataSource, hact, htype, syncTwitterSource, twitterWindowStart]

/-- C7 (witness): a source previously synced at time 100 whose next run
starts at 200 — the adapter window begins at 200, not at the recorded 100. -/
theorem sync_window_starts_at_run_start_witness :
    twitterWindowStart { sampleTwitterSource with last_sync_at := some 200 } 200 = 200 ∧
      twitterWindowStart { sampleTwitterSource with last_sync_at := some 200 } 200 ≠ 100 :=
  ⟨sync_window_starts_at_run_start.1 sampleTwitterSource 200 200,
    sync_window_starts_at_run_start.2.1 sampleTwitterSource 200 200 100 rfl (by decide)⟩

/-! ### C8 -/

/-- C8 (counterexample): an RSS run whose feed fetch raises is logged
SUCCESS with no error text and zero counts — the error is swallowed inside
`RSSParser.parse_feed`, not surfaced as a FAILED SyncRun. -/
theorem rss_fetch_error_logged_success :
    (syncDataSource sampleSource [] failingOracles 100 100).1 =
        some { source_id := 1, status := SyncStatus.success, items_fetched := 0,
               items_new := 0, items_updated := 0, error_message := none } ∧
      SyncStatus.success ≠ SyncStatus.failed := by
  exact ⟨rfl, by decide⟩

/-- C8 (amended): for Twitter, Telegram, Facebook and Instagram sources a
provider fetch error (and likewise a missing-credential configuration
error) is recorded as a FAILED SyncRun carrying the captured error text,
with the content store untouched; but RSS feed fetch/parse errors are
caught inside `RSSParser.parse_feed`, which returns an empty item list, so
such a run is recorded SUCCESS with zero counts and no error text. -/
theorem sync_failure_logging :
    (∀ (source : DataSource) (store : List ContentItem) (o : SyncOracles)
      (startTime now : Int) (msg c : String),
      source.is_active = true → source.source_type = SourceType.twitter →
      source.credentials = some c → o.twitterFetch startTime = .error msg →
        (syncDataSource source store o startTime now).1 =
            some { source_id := source.id, status := SyncStatus.failed,
                   items_fetched := 0, items_new := 0, items_updated := 0,
                   error_message := some msg } ∧
          (syncDataSource source store o startTime now).2.1 = store) ∧
    (∀ (source : DataSource) (store : List ContentItem) (o : SyncOracles)
      (startTime now : Int) (msg c : String),
      source.is_active = true → source.source_type = SourceType.telegram →
      source.credentials = some c → o.telegramFetch (some startTime) = .error msg →
        (syncDataSource source store o startTime now).1 =
            some { source_id := source.id, status := SyncStatus.failed,
                   items_fetched := 0, items_new := 0, items_updated := 0,
                   error_message := some msg } ∧
          (syncDataSource source store o startTime now).2.1 = store) ∧
    (∀ (source : DataSource) (store : List ContentItem) (o : SyncOracles)
      (startTime now : Int) (msg c : String),
      source.is_active = true → source.source_type = SourceType.facebook →
      source.credentials = some c → o.facebookFetch startTime = .error msg →
        (syncDataSource source store o startTime now).1 =
            some { source_id := source.id, status := SyncStatus.failed,
                   items_fetched := 0, items_new := 0, items_updated := 0,
                   error_message := some msg } ∧
          (syncDataSource source store o startTime now).2.1 = store) ∧
    (∀ (source : DataSource) (store : List ContentItem) (o : SyncOracles)
      (startTime now : Int) (msg : String),
      source.is_active = true → source.source_type = SourceType.instagram →
      (∃ c, source.credentials = some c) → o.instagramFetch = .error msg →
        (syncDataSource source store o startTime now).1 =
            some { source_id := source.id, status := SyncStatus.failed,
                   items_fetched := 0, items_new := 0, items_updated := 0,
                   error_message := some msg } ∧
          (syncDataSource source store o startTime now).2.1 = store) ∧
    (∀ (source : DataSource) (store : List ContentItem) (o : SyncOracles)
      (startTime now : Int),
      source.is_active = true → source.source_type = SourceType.twitter →
      source.credentials = none →
        (syncDataSource source store o startTime now).1 =
          some { source_id := source.id, status := SyncStatus.failed,
                 items_fetched := 0, items_new := 0, items_updated := 0,
                 error_message := some "No credentials found for Twitter source" }) ∧
    (∀ (source : DataSource) (store : List ContentItem) (o : SyncOracles)
      (startTime now : Int) (msg f : String),
      source.is_active = true → source.source_type = SourceType.rss →
      source.settings_feed_url = some f → o.rssFetch = .error msg →
        (syncDataSource source store o startTime now).1 =
          some { source_id := source.id, status := SyncStatus.success,
                 items_fetched := 0, items_new := 0, items_updated := 0,
                 error_message := none }) := by
  refine ⟨?_, ?_, ?_, ?_, ?_, ?_⟩
  · intro source store o startTime now msg c hact htype hc hfetch
    constructor <;>
      simp [syncDataSource, hact, htype, syncTwitterSource, twitterWindowStart, hc, hfetch]
  · intro source store o startTime now msg c hact htype hc hfetch
    constructor <;>
      simp [syncDataSource, hact, htype, syncTelegramSource, telegramOffset, hc, hfetch]
  · intro source store o startTime now msg c hact htype hc hfetch
    constructor <;>
      simp [syncDataSource, hact, htype, syncFacebookSource, twitterWindowStart, hc, hfetch]
  · intro source store o startTime now msg hact htype hc hfetch
    obtain ⟨c, hc⟩ := hc
    constructor <;>
      simp [syncDataSource, hact, htype, syncInstagramSource, hc, hfetch]
  · intro source store o startTime now hact htype hc
    simp [syncDataSource, hact, htype, syncTwitterSource, hc]
  · intro source store o startTime now msg f hact htype hf hfetch
    simp [syncDataSource, hact, htype, syncRssSource, hf, hfetch, parseFeed, rssReconcile]

/-- C8 (witness): the amended theorem at concrete fixtures — a failing
Twitter fetch is logged FAILED with its message and the store is untouched,
while the failing RSS fetch of the counterexample source is logged SUCCESS. -/
theorem sync_failure_logging_witness :
    ((syncDataSource sampleTwitterSource [] failingOracles 100 100).1 =
          some { source_id := 2, status := SyncStatus.failed, items_fetched := 0,
                 items_new := 0, items_updated := 0,
                 error_message := some "twitter down" } ∧
        (syncDataSource sampleTwitterSource [] failingOracles 100 100).2.1 = []) ∧
      (syncDataSource sampleSource [] failingOracles 100 100).1 =
        some { source_id := 1, status := SyncStatus.success, items_fetched := 0,
               items_new := 0, items_updated := 0, error_message := none } :=
  ⟨sync_failure_logging.1 sampleTwitterSource [] failingOracles 100 100
      "twitter down" "enc-token" rfl rfl rfl rfl,
    sync_failure_logging.2.2.2.2.2 sampleSource [] failingOracles 100 100
      "network unreachable" "https://example.com/feed" rfl rfl rfl rfl⟩

end Backend2024
